import Mathlib

/-!
# Temperature lookup by postal code (`taisso/cloudrun`, `main.go`)

A shallow embedding of `CepTemperature.GetCepTemperatureHandler` together with
`ToJson` and `ToError`, and theorems about the response it writes, the calls it
makes on its two dependencies and the temperatures it reports.

Conventions of the embedding

* A Go `string` is its sequence of bytes (`GoString`); the builtin `len` is the
  number of bytes.
* A Go pointer result (`*nominatim.Nominatim`, `*weather.Weather`) is an
  `Option`; `none` is `nil`.  A Go `error` result is an `Option GoError`;
  `none` is `nil`.
* `float64` and `float32` values are IEEE-754 data (`GoFloat`); finite
  magnitudes are counted in units of `2^-1074`, the smallest positive
  `float64`, so that every finite value of either width is one natural number.
* The two dependencies are interfaces whose implementations may keep state of
  their own; a method takes the state of the outside world and returns the new
  one.  A call of a dependency is assumed to return.
* `http.ResponseWriter` is a recorder of what the handler wrote (header fields,
  the status code given to the first `WriteHeader`, the JSON documents written
  to the body), as `httptest.ResponseRecorder` is in the tests.  A JSON
  document is kept as the value that was encoded, not as text.
* A run of the handler is recorded in a `Run`: the writer, the value the
  goroutine panicked with (if it did), the errors given to `log.Println`, the
  calls made on the dependencies in order, and the final state of the world.
-/

namespace CloudRun

/-! ## Strings -/

/-- Go `string`: an immutable sequence of bytes. -/
abbrev GoString := List UInt8

/-- The Go string written as the literal `s` in a UTF-8 source file. -/
def lit (s : String) : GoString := s.toUTF8.data.toList

/-- Go builtin `len` on a string: its number of bytes. -/
def len (s : GoString) : Int := s.length

/-! ## Floating point -/

/-- An IEEE-754 binary datum.  `fin neg n` is the finite value
`(-1)^neg * n * 2^-1074`; `fin true 0` is negative zero. -/
inductive GoFloat where
  | nan : GoFloat
  | inf (neg : Bool) : GoFloat
  | fin (neg : Bool) (n : Nat) : GoFloat
  deriving DecidableEq, Repr

/-- A binary interchange format: `prec` bits of significand, the smallest unit
in the last place `2^minExp` and the overflow threshold `2^maxExp`, both in units
of `2^-1074`. -/
structure Format where
  prec : Nat
  minExp : Nat
  maxExp : Nat
  deriving DecidableEq, Repr

/-- Go `float32`: 24 bits, subnormal spacing `2^-149`, overflow at `2^128`. -/
def binary32 : Format := { prec := 24, minExp := 925, maxExp := 1202 }

/-- Go `float64`: 53 bits, subnormal spacing `2^-1074`, overflow at `2^1024`. -/
def binary64 : Format := { prec := 53, minExp := 0, maxExp := 2098 }

/-- Floor of the binary logarithm, by halving at most `fuel` times. -/
def log2Fuel : Nat → Nat → Nat
  | 0, _ => 0
  | fuel + 1, n => if n < 2 then 0 else log2Fuel fuel (n / 2) + 1

/-- Floor of the binary logarithm of `n` (and `0` at `0`). -/
def ilog2 (n : Nat) : Nat := log2Fuel n n

/-- Exponent of the unit in the last place of the binade of `n` in format `f`. -/
def ulpExp (f : Format) (n : Nat) : Nat := max (ilog2 n + 1 - f.prec) f.minExp

/-- Nearest multiple of `2^s` to `n`, ties to the even multiple. -/
def roundHalfEven (s n : Nat) : Nat :=
  let u := 2 ^ s
  let q := n / u
  let r := n % u
  if 2 * r < u then q * u
  else if u < 2 * r then (q + 1) * u
  else if q % 2 = 0 then q * u else (q + 1) * u

/-- Round the exact magnitude `n` with sign `neg` into format `f`
(round to nearest, ties to even; overflow gives an infinity). -/
def roundTo (f : Format) (neg : Bool) (n : Nat) : GoFloat :=
  let m := roundHalfEven (ulpExp f n) n
  if m < 2 ^ f.maxExp then .fin neg m else .inf neg

/-- Conversion of a float to format `f`. -/
def GoFloat.convert (f : Format) : GoFloat → GoFloat
  | .nan => .nan
  | .inf s => .inf s
  | .fin s n => roundTo f s n

/-- Go conversion `float32(x)` of a `float64`. -/
def float32 (x : GoFloat) : GoFloat := x.convert binary32

/-- Signed count of units `2^-1074` of a finite value. -/
def signedUnits (neg : Bool) (n : Nat) : Int := if neg then -(n : Int) else (n : Int)

/-- The finite value with the signed count of units `z` (zero is positive). -/
def ofUnits (z : Int) : GoFloat := .fin (decide (z < 0)) z.natAbs

/-- The integer constant `k` as a float (exact for the constants used here). -/
def ofInt (k : Int) : GoFloat := ofUnits (k * ((2 ^ 1074 : Nat) : Int))

/-- IEEE-754 addition in format `f`, rounding to nearest. -/
def GoFloat.add (f : Format) : GoFloat → GoFloat → GoFloat
  | .nan, _ => .nan
  | _, .nan => .nan
  | .inf s, .inf t => if s = t then .inf s else .nan
  | .inf s, .fin _ _ => .inf s
  | .fin _ _, .inf t => .inf t
  | .fin s n, .fin t m =>
    let z : Int := signedUnits s n + signedUnits t m
    if z = 0 then .fin (s && t) 0
    else roundTo f (decide (z < 0)) z.natAbs

/-- Go `x + y` on `float64` operands. -/
def add64 (x y : GoFloat) : GoFloat := GoFloat.add binary64 x y

/-- Go `x + y` on `float32` operands. -/
def add32 (x y : GoFloat) : GoFloat := GoFloat.add binary32 x y

/-- Neither an infinity nor a NaN (`!math.IsInf(f, 0) && !math.IsNaN(f)`). -/
def GoFloat.isFinite : GoFloat → Bool
  | .fin _ _ => true
  | _ => false

/-- Signed count of units of a finite value, `none` for an infinity or a NaN. -/
def GoFloat.units : GoFloat → Option Int
  | .fin s n => some (signedUnits s n)
  | _ => none

/-! ## Errors -/

/-- A Go `error` value.  `ErrNotFound` is the sentinel `nominatim.ErrNotFound`;
`other text` is any other error value, `text` being what its `Error()` returns.
The handler compares an error with the sentinel by `==` only. -/
inductive GoError where
  | ErrNotFound : GoError
  | other (text : GoString) : GoError
  deriving DecidableEq, Repr

/-- Go `errors.New(text)` (a value distinct from the sentinel). -/
def errors.New (text : GoString) : GoError := .other text

/-- Method `Error()`.  The text of `nominatim.ErrNotFound` is fixed where the
sentinel is declared, in `pkg/nominatim`; the handler never reads it. -/
def GoError.Error : GoError → GoString
  | .ErrNotFound => lit "not found"
  | .other text => text

/-! ## `pkg/nominatim` and `pkg/weather` -/

/-- Go `nominatim.Nominatim` (`pkg/nominatim/model.go`); the field `Type` is
written `Type_`. -/
structure nominatim.Nominatim where
  PlaceID : Int
  Licence : GoString
  Lat : GoString
  Lon : GoString
  Category : GoString
  Type_ : GoString
  PlaceRank : Int
  Importance : GoFloat
  Addresstype : GoString
  Name : GoString
  DisplayName : GoString
  Boundingbox : List GoString
  deriving DecidableEq, Repr

/-- Go interface `nominatim.INominatim`; `σ` is the state of the outside world. -/
structure nominatim.INominatim (σ : Type) where
  GetLocation : GoString → σ → (Option nominatim.Nominatim × Option GoError) × σ

/-- Modelled from the spec: `weather.Current`, declared in `pkg/weather`, whose
source is missing; the handler reads its `float64` fields `TempC` and `TempF`
(a WeatherReading is the current temperature in Celsius and Fahrenheit,
floating point, which the handler narrows to single precision). -/
structure weather.Current where
  TempC : GoFloat
  TempF : GoFloat
  deriving DecidableEq, Repr

/-- Modelled from the spec: `weather.Weather`, declared in `pkg/weather`, whose
source is missing; the handler reads `Current` only. -/
structure weather.Weather where
  Current : weather.Current
  deriving DecidableEq, Repr

/-- Modelled from the spec: interface `weather.IWeather`, declared in
`pkg/weather`, whose source is missing; its method has the signature of the
test double
`MockWeatherApi.GetWeather(lat, lon string) (*weather.Weather, error)`. -/
structure weather.IWeather (σ : Type) where
  GetWeather : GoString → GoString → σ → (Option weather.Weather × Option GoError) × σ

/-! ## `net/http` -/

/-- Go `http.StatusOK`. -/
def http.StatusOK : Int := 200

/-- Go `http.StatusNotFound`. -/
def http.StatusNotFound : Int := 404

/-- Go `http.StatusUnprocessableEntity`. -/
def http.StatusUnprocessableEntity : Int := 422

/-- Go `http.StatusInternalServerError`. -/
def http.StatusInternalServerError : Int := 500

/-- The part of `*http.Request` the handler reads: the path wildcards matched. -/
structure http.Request where
  pathValues : List (GoString × GoString)
  deriving DecidableEq, Repr

/-- Go `(*Request).PathValue`: the value of the wildcard `name`, or the empty
string when there is none. -/
def http.Request.PathValue (r : http.Request) (name : GoString) : GoString :=
  match r.pathValues.find? (fun p => p.1 = name) with
  | some p => p.2
  | none => []

/-- Go `(*Request).SetPathValue`. -/
def http.Request.SetPathValue (r : http.Request) (name value : GoString) : http.Request :=
  { pathValues := (name, value) :: r.pathValues.filter (fun p => p.1 ≠ name) }

/-- Go `httptest.NewRequest(http.MethodGet, "/", nil)`: no wildcard matched. -/
def httptest.NewRequest : http.Request := { pathValues := [] }

/-! ## `main.go` -/

/-- Go `Response`; the three fields are `float32`. -/
structure Response where
  TempC : GoFloat
  TempF : GoFloat
  TempK : GoFloat
  deriving DecidableEq, Repr

/-- Go `ResponseError`. -/
structure ResponseError where
  Message : GoString
  Code : Int
  deriving DecidableEq, Repr

/-- What `ToJson` is given as `data interface{}` in this program. -/
inductive Payload where
  | response (r : Response) : Payload
  | responseError (e : ResponseError) : Payload
  deriving DecidableEq, Repr

/-- A value a goroutine panics with. -/
inductive Panic where
  | nilDereference : Panic
  | unsupportedValue : Panic
  deriving DecidableEq, Repr

/-- What has been written to an `http.ResponseWriter`. -/
structure ResponseWriter where
  header : List (GoString × GoString)
  code : Option Int
  body : List Payload
  deriving DecidableEq, Repr

/-- Go `httptest.NewRecorder()`: nothing written yet. -/
def httptest.NewRecorder : ResponseWriter := { header := [], code := none, body := [] }

/-- Go `w.Header().Add(key, value)`. -/
def ResponseWriter.HeaderAdd (w : ResponseWriter) (key value : GoString) : ResponseWriter :=
  { w with header := w.header ++ [(key, value)] }

/-- Go `w.WriteHeader(statusCode)`: the first call fixes the status code. -/
def ResponseWriter.WriteHeader (w : ResponseWriter) (statusCode : Int) : ResponseWriter :=
  match w.code with
  | none => { w with code := some statusCode }
  | some _ => w

/-- Go `w.Write` of one encoded document. -/
def ResponseWriter.Write (w : ResponseWriter) (doc : Payload) : ResponseWriter :=
  { w with body := w.body ++ [doc] }

/-- Go `json.NewEncoder(w).Encode(data)` up to the write: the document, or
`none` for `json.UnsupportedValueError`, which `encoding/json` returns for a
floating-point field that is an infinity or a NaN. -/
def json.Encode : Payload → Option Payload
  | .response r =>
    if r.TempC.isFinite && r.TempF.isFinite && r.TempK.isFinite then some (.response r) else none
  | .responseError e => some (.responseError e)

/-- Go `ErrInvalidZipCode`. -/
def ErrInvalidZipCode : GoError := errors.New (lit "invalid zipcode")

/-- Go `ErrStatusInternalServer`. -/
def ErrStatusInternalServer : GoError := errors.New (lit "internal error")

/-- Go `ErrNotFoundZipCode`. -/
def ErrNotFoundZipCode : GoError := errors.New (lit "can not find zipcode")

/-- Go `CepTemperature`. -/
structure CepTemperature (σ : Type) where
  weather : weather.IWeather σ
  nominatim : nominatim.INominatim σ

/-- Go `NewCepTemperature`. -/
def NewCepTemperature {σ : Type} (weather : weather.IWeather σ)
    (nomination : nominatim.INominatim σ) : CepTemperature σ :=
  { weather := weather, nominatim := nomination }

/-- A call made on a dependency, with its arguments. -/
inductive Call where
  | GetLocation (cep : GoString) : Call
  | GetWeather (lat lon : GoString) : Call
  deriving DecidableEq, Repr

/-- The record of one run of the handler. -/
structure Run (σ : Type) where
  w : ResponseWriter
  panicked : Option Panic
  log : List GoError
  calls : List Call
  world : σ

/-- Go `ToJson`: the writer afterwards, and the panic raised when encoding fails. -/
def ToJson (w : ResponseWriter) (statusCode : Int) (data : Payload) :
    ResponseWriter × Option Panic :=
  let w1 := w.HeaderAdd (lit "Content-Type") (lit "application/json")
  let w2 := w1.WriteHeader statusCode
  match json.Encode data with
  | some doc => (w2.Write doc, none)
  | none => (w2, some Panic.unsupportedValue)

/-- Go `ToError`. -/
def ToError (w : ResponseWriter) (statusCode : Int) (err : GoError) :
    ResponseWriter × Option Panic :=
  ToJson w statusCode (.responseError { Code := statusCode, Message := err.Error })

/-- Go `CepTemperature.GetCepTemperatureHandler`. -/
def CepTemperature.GetCepTemperatureHandler {σ : Type} (ct : CepTemperature σ)
    (w : ResponseWriter) (r : http.Request) (s : σ) : Run σ :=
  let cep := r.PathValue (lit "cep")
  if len cep ≠ 8 then
    let out := ToError w http.StatusUnprocessableEntity ErrInvalidZipCode
    { w := out.1, panicked := out.2, log := [], calls := [], world := s }
  else
    match ct.nominatim.GetLocation cep s with
    | ((_, some err), s1) =>
      if err = GoError.ErrNotFound then
        let out := ToError w http.StatusNotFound ErrNotFoundZipCode
        { w := out.1, panicked := out.2, log := [], calls := [.GetLocation cep], world := s1 }
      else
        let out := ToError w http.StatusInternalServerError ErrStatusInternalServer
        { w := out.1, panicked := out.2, log := [err], calls := [.GetLocation cep], world := s1 }
    | ((none, none), s1) =>
      { w := w, panicked := some Panic.nilDereference, log := [],
        calls := [.GetLocation cep], world := s1 }
    | ((some nominatimResponse, none), s1) =>
      let lat := nominatimResponse.Lat
      let lng := nominatimResponse.Lon
      match ct.weather.GetWeather lat lng s1 with
      | ((_, some err), s2) =>
        let out := ToError w http.StatusInternalServerError ErrStatusInternalServer
        { w := out.1, panicked := out.2, log := [err],
          calls := [.GetLocation cep, .GetWeather lat lng], world := s2 }
      | ((none, none), s2) =>
        { w := w, panicked := some Panic.nilDereference, log := [],
          calls := [.GetLocation cep, .GetWeather lat lng], world := s2 }
      | ((some weatherResponse, none), s2) =>
        let out := ToJson w http.StatusOK (.response {
          TempC := float32 weatherResponse.Current.TempC
          TempF := float32 weatherResponse.Current.TempF
          TempK := float32 (add64 weatherResponse.Current.TempC (ofInt 273)) })
        { w := out.1, panicked := out.2, log := [],
          calls := [.GetLocation cep, .GetWeather lat lng], world := s2 }

/-- Go `CepTemperature.ServeHTTP`. -/
def CepTemperature.ServeHTTP {σ : Type} (ct : CepTemperature σ)
    (w : ResponseWriter) (r : http.Request) (s : σ) : Run σ :=
  ct.GetCepTemperatureHandler w r s

/-! ## Test doubles (`cloudrun_test.go`) -/

/-- Go `MockNominatimApi` set up with `.On("GetLocation", _).Return(ret)`; the
state of the world is the number of calls recorded by the doubles. -/
def MockNominatimApi (ret : Option nominatim.Nominatim × Option GoError) :
    nominatim.INominatim Nat :=
  { GetLocation := fun _ calls => (ret, calls + 1) }

/-- Go `MockWeatherApi` set up with `.On("GetWeather", _, _).Return(ret)`. -/
def MockWeatherApi (ret : Option weather.Weather × Option GoError) : weather.IWeather Nat :=
  { GetWeather := fun _ _ calls => (ret, calls + 1) }

/-- Go `&nominatim.Nominatim{PlaceID: 000, Lat: lat, Lon: lon}`. -/
def nominatimAt (lat lon : GoString) : nominatim.Nominatim :=
  { PlaceID := 0, Licence := [], Lat := lat, Lon := lon, Category := [], Type_ := [],
    PlaceRank := 0, Importance := ofInt 0, Addresstype := [], Name := [], DisplayName := [],
    Boundingbox := [] }

/-- Go `Setup` of the tests: a fresh recorder and a request whose wildcard `cep`
is `param`; the doubles have recorded no call yet. -/
def Setup (param : GoString) (cepTemperature : CepTemperature Nat) : Run Nat :=
  cepTemperature.GetCepTemperatureHandler httptest.NewRecorder
    (httptest.NewRequest.SetPathValue (lit "cep") param) 0

/-! ## The rounding model -/

theorem log2Fuel_spec (fuel : Nat) : ∀ n : Nat, 0 < n → n ≤ fuel →
    2 ^ log2Fuel fuel n ≤ n ∧ n < 2 ^ (log2Fuel fuel n + 1) := by
  induction fuel with
  | zero => intro n h0 h1; omega
  | succ fuel ih =>
    intro n h0 h1
    unfold log2Fuel
    by_cases h2 : n < 2
    · rw [if_pos h2]
      have : n = 1 := by omega
      subst this
      simp
    · rw [if_neg h2]
      have hq := ih (n / 2) (by omega) (by omega)
      have e1 : 2 ^ (log2Fuel fuel (n / 2) + 1) = 2 * 2 ^ log2Fuel fuel (n / 2) := by
        rw [Nat.pow_succ, Nat.mul_comm]
      have e2 : 2 ^ (log2Fuel fuel (n / 2) + 1 + 1) = 2 * 2 ^ (log2Fuel fuel (n / 2) + 1) := by
        rw [Nat.pow_succ, Nat.mul_comm]
      rw [e2, e1]
      rw [e1] at hq
      omega

/-- `ilog2 n` is the floor of the binary logarithm of a positive `n`. -/
theorem ilog2_spec (n : Nat) (h : 0 < n) : 2 ^ ilog2 n ≤ n ∧ n < 2 ^ (ilog2 n + 1) :=
  log2Fuel_spec n n h (Nat.le_refl n)

/-- `roundHalfEven s n` is within half a unit `2^s` of `n`. -/
theorem roundHalfEven_near (s n : Nat) :
    2 * (roundHalfEven s n - n) ≤ 2 ^ s ∧ 2 * (n - roundHalfEven s n) ≤ 2 ^ s := by
  have hdm := Nat.div_add_mod n (2 ^ s)
  have hlt : n % 2 ^ s < 2 ^ s := Nat.mod_lt _ (Nat.two_pow_pos s)
  have hs : (n / 2 ^ s + 1) * 2 ^ s = 2 ^ s * (n / 2 ^ s) + 2 ^ s := by
    rw [Nat.add_mul, Nat.one_mul, Nat.mul_comm]
  have hc : n / 2 ^ s * 2 ^ s = 2 ^ s * (n / 2 ^ s) := Nat.mul_comm _ _
  unfold roundHalfEven
  simp only
  split_ifs <;> rw [hs] at * <;> omega

set_option exponentiation.threshold 4000 in
set_option maxRecDepth 10000 in
/-- Known conversions: the `float64` nearest to 0.1 narrows to the `float32`
`13421773 * 2^-27`; the largest `float32` is kept; half a unit above it
overflows to `+Inf`; negative zero and 20 are kept. -/
theorem float32_examples :
    float32 (.fin false (3602879701896397 * 2 ^ 1019)) = .fin false (13421773 * 2 ^ 1047) ∧
    float32 (.fin false ((2 ^ 24 - 1) * 2 ^ 1178)) = .fin false ((2 ^ 24 - 1) * 2 ^ 1178) ∧
    float32 (.fin false ((2 ^ 25 - 1) * 2 ^ 1177)) = .inf false ∧
    float32 (.fin true 0) = .fin true 0 ∧
    float32 (ofInt 20) = ofInt 20 ∧
    add64 (ofInt 20) (ofInt 273) = ofInt 293 ∧
    add64 (ofInt (-273)) (ofInt 273) = .fin false 0 := by
  decide


/-! ## Basic facts about `ToJson` and `ToError` -/

theorem ToError_NewRecorder (statusCode : Int) (err : GoError) :
    ToError httptest.NewRecorder statusCode err =
      ({ header := [(lit "Content-Type", lit "application/json")], code := some statusCode,
         body := [.responseError { Message := err.Error, Code := statusCode }] }, none) := by
  simp [ToError, ToJson, json.Encode, httptest.NewRecorder, ResponseWriter.HeaderAdd,
    ResponseWriter.WriteHeader, ResponseWriter.Write]

theorem ToJson_NewRecorder (statusCode : Int) (data : Payload) :
    ToJson httptest.NewRecorder statusCode data =
      match json.Encode data with
      | some doc =>
        ({ header := [(lit "Content-Type", lit "application/json")], code := some statusCode,
           body := [doc] }, none)
      | none =>
        ({ header := [(lit "Content-Type", lit "application/json")], code := some statusCode,
           body := [] }, some Panic.unsupportedValue) := by
  cases h : json.Encode data <;>
  simp [ToJson, h, httptest.NewRecorder, ResponseWriter.HeaderAdd,
    ResponseWriter.WriteHeader, ResponseWriter.Write]

/-- C1. A postal code whose `len` is not 8 is answered with status 422 and the
error body `invalid zipcode`, whatever the dependencies are; neither dependency
is called and the outside world is left as it was. -/
theorem invalid_length_rejected {σ : Type} (ct : CepTemperature σ) (r : http.Request) (s : σ)
    (hlen : len (r.PathValue (lit "cep")) ≠ 8) :
    (ct.GetCepTemperatureHandler httptest.NewRecorder r s).panicked = none ∧
    (ct.GetCepTemperatureHandler httptest.NewRecorder r s).w.code = some 422 ∧
    (ct.GetCepTemperatureHandler httptest.NewRecorder r s).w.body =
      [.responseError { Message := lit "invalid zipcode", Code := 422 }] ∧
    (ct.GetCepTemperatureHandler httptest.NewRecorder r s).calls = [] ∧
    (ct.GetCepTemperatureHandler httptest.NewRecorder r s).world = s := by
  simp [CepTemperature.GetCepTemperatureHandler, hlen, ToError_NewRecorder,
    ErrInvalidZipCode, errors.New, GoError.Error, http.StatusUnprocessableEntity]

/-- Witness of C1, the case of `TestZipCodeInvalid`: the postal code `180862`. -/
theorem invalid_length_rejected_witness :
    len ((httptest.NewRequest.SetPathValue (lit "cep") (lit "180862")).PathValue (lit "cep")) ≠ 8 ∧
    (Setup (lit "180862")
      (NewCepTemperature (MockWeatherApi (none, none)) (MockNominatimApi (none, none)))).panicked
      = none ∧
    (Setup (lit "180862")
      (NewCepTemperature (MockWeatherApi (none, none)) (MockNominatimApi (none, none)))).w.code
      = some 422 ∧
    (Setup (lit "180862")
      (NewCepTemperature (MockWeatherApi (none, none)) (MockNominatimApi (none, none)))).w.body
      = [.responseError { Message := lit "invalid zipcode", Code := 422 }] ∧
    (Setup (lit "180862")
      (NewCepTemperature (MockWeatherApi (none, none)) (MockNominatimApi (none, none)))).calls
      = [] ∧
    (Setup (lit "180862")
      (NewCepTemperature (MockWeatherApi (none, none)) (MockNominatimApi (none, none)))).world
      = 0 :=
  ⟨by decide, invalid_length_rejected _ _ _ (by decide)⟩

/-- C2. For a postal code of length 8, when `GetLocation` fails with the sentinel
`nominatim.ErrNotFound` (whatever location pointer comes with it), the answer is
status 404 with the error body `can not find zipcode`, and the only call made
on the dependencies is that one `GetLocation`: `GetWeather` is not called. -/
theorem not_found_is_404 {σ : Type} (ct : CepTemperature σ) (r : http.Request) (s s1 : σ)
    (location : Option nominatim.Nominatim)
    (hlen : len (r.PathValue (lit "cep")) = 8)
    (hgeo : ct.nominatim.GetLocation (r.PathValue (lit "cep")) s =
      ((location, some GoError.ErrNotFound), s1)) :
    (ct.GetCepTemperatureHandler httptest.NewRecorder r s).panicked = none ∧
    (ct.GetCepTemperatureHandler httptest.NewRecorder r s).w.code = some 404 ∧
    (ct.GetCepTemperatureHandler httptest.NewRecorder r s).w.body =
      [.responseError { Message := lit "can not find zipcode", Code := 404 }] ∧
    (ct.GetCepTemperatureHandler httptest.NewRecorder r s).calls =
      [.GetLocation (r.PathValue (lit "cep"))] := by
  simp [CepTemperature.GetCepTemperatureHandler, hlen, hgeo, ToError_NewRecorder,
    ErrNotFoundZipCode, errors.New, GoError.Error, http.StatusNotFound]

/-- Witness of C2, the case of `TestZipCodeNotFound`. -/
theorem not_found_is_404_witness :
    len ((httptest.NewRequest.SetPathValue (lit "cep") (lit "00000000")).PathValue (lit "cep"))
      = 8 ∧
    (Setup (lit "00000000")
      (NewCepTemperature (MockWeatherApi (none, none))
        (MockNominatimApi (some (nominatimAt [] []), some GoError.ErrNotFound)))).w.code
      = some 404 ∧
    (Setup (lit "00000000")
      (NewCepTemperature (MockWeatherApi (none, none))
        (MockNominatimApi (some (nominatimAt [] []), some GoError.ErrNotFound)))).w.body
      = [.responseError { Message := lit "can not find zipcode", Code := 404 }] ∧
    (Setup (lit "00000000")
      (NewCepTemperature (MockWeatherApi (none, none))
        (MockNominatimApi (some (nominatimAt [] []), some GoError.ErrNotFound)))).calls
      = [.GetLocation (lit "00000000")] :=
  ⟨by decide,
    (not_found_is_404
      (NewCepTemperature (MockWeatherApi (none, none))
        (MockNominatimApi (some (nominatimAt [] []), some GoError.ErrNotFound)))
      (httptest.NewRequest.SetPathValue (lit "cep") (lit "00000000")) 0 1
      (some (nominatimAt [] [])) (by decide) rfl).2⟩

/-- C3. For a postal code of length 8, when `GetLocation` fails with an error
other than the sentinel `nominatim.ErrNotFound`, the answer is status 500 with
the error body `internal error`; the error is logged, and the only call made on
the dependencies is that one `GetLocation`: `GetWeather` is not called. -/
theorem geocoder_failure_is_500 {σ : Type} (ct : CepTemperature σ) (r : http.Request)
    (s s1 : σ) (location : Option nominatim.Nominatim) (e : GoError)
    (hlen : len (r.PathValue (lit "cep")) = 8)
    (he : e ≠ GoError.ErrNotFound)
    (hgeo : ct.nominatim.GetLocation (r.PathValue (lit "cep")) s = ((location, some e), s1)) :
    (ct.GetCepTemperatureHandler httptest.NewRecorder r s).panicked = none ∧
    (ct.GetCepTemperatureHandler httptest.NewRecorder r s).w.code = some 500 ∧
    (ct.GetCepTemperatureHandler httptest.NewRecorder r s).w.body =
      [.responseError { Message := lit "internal error", Code := 500 }] ∧
    (ct.GetCepTemperatureHandler httptest.NewRecorder r s).calls =
      [.GetLocation (r.PathValue (lit "cep"))] ∧
    (ct.GetCepTemperatureHandler httptest.NewRecorder r s).log = [e] := by
  simp [CepTemperature.GetCepTemperatureHandler, hlen, hgeo, he, ToError_NewRecorder,
    ErrStatusInternalServer, errors.New, GoError.Error, http.StatusInternalServerError]

/-- Witness of C3, the first case of `TestInternalServer`. -/
theorem geocoder_failure_is_500_witness :
    len ((httptest.NewRequest.SetPathValue (lit "cep") (lit "00000000")).PathValue (lit "cep"))
      = 8 ∧
    ErrStatusInternalServer ≠ GoError.ErrNotFound ∧
    (Setup (lit "00000000")
      (NewCepTemperature (MockWeatherApi (none, none))
        (MockNominatimApi (some (nominatimAt [] []), some ErrStatusInternalServer)))).w.code
      = some 500 ∧
    (Setup (lit "00000000")
      (NewCepTemperature (MockWeatherApi (none, none))
        (MockNominatimApi (some (nominatimAt [] []), some ErrStatusInternalServer)))).w.body
      = [.responseError { Message := lit "internal error", Code := 500 }] ∧
    (Setup (lit "00000000")
      (NewCepTemperature (MockWeatherApi (none, none))
        (MockNominatimApi (some (nominatimAt [] []), some ErrStatusInternalServer)))).calls
      = [.GetLocation (lit "00000000")] ∧
    (Setup (lit "00000000")
      (NewCepTemperature (MockWeatherApi (none, none))
        (MockNominatimApi (some (nominatimAt [] []), some ErrStatusInternalServer)))).log
      = [ErrStatusInternalServer] :=
  ⟨by decide, by decide,
    (geocoder_failure_is_500
      (NewCepTemperature (MockWeatherApi (none, none))
        (MockNominatimApi (some (nominatimAt [] []), some ErrStatusInternalServer)))
      (httptest.NewRequest.SetPathValue (lit "cep") (lit "00000000")) 0 1
      (some (nominatimAt [] [])) ErrStatusInternalServer (by decide) (by decide) rfl).2⟩

/-- C4. For a postal code of length 8, when `GetLocation` succeeds with a location
whose coordinates are `(Lat, Lon)` and `GetWeather` then fails with any error
(whatever pointer comes with it), the answer is status 500 with the error body
`internal error`; `GetLocation` is called once, with the postal code, and then
`GetWeather` once, with `Lat` first and `Lon` second. -/
theorem weather_failure_is_500 {σ : Type} (ct : CepTemperature σ) (r : http.Request)
    (s s1 s2 : σ) (location : nominatim.Nominatim) (reading : Option weather.Weather)
    (e : GoError)
    (hlen : len (r.PathValue (lit "cep")) = 8)
    (hgeo : ct.nominatim.GetLocation (r.PathValue (lit "cep")) s = ((some location, none), s1))
    (hwea : ct.weather.GetWeather location.Lat location.Lon s1 = ((reading, some e), s2)) :
    (ct.GetCepTemperatureHandler httptest.NewRecorder r s).panicked = none ∧
    (ct.GetCepTemperatureHandler httptest.NewRecorder r s).w.code = some 500 ∧
    (ct.GetCepTemperatureHandler httptest.NewRecorder r s).w.body =
      [.responseError { Message := lit "internal error", Code := 500 }] ∧
    (ct.GetCepTemperatureHandler httptest.NewRecorder r s).calls =
      [.GetLocation (r.PathValue (lit "cep")), .GetWeather location.Lat location.Lon] ∧
    (ct.GetCepTemperatureHandler httptest.NewRecorder r s).log = [e] := by
  simp [CepTemperature.GetCepTemperatureHandler, hlen, hgeo, hwea, ToError_NewRecorder,
    ErrStatusInternalServer, errors.New, GoError.Error, http.StatusInternalServerError]

/-- Witness of C4, the second case of `TestInternalServer`. -/
theorem weather_failure_is_500_witness :
    len ((httptest.NewRequest.SetPathValue (lit "cep") (lit "11111111")).PathValue (lit "cep"))
      = 8 ∧
    (Setup (lit "11111111")
      (NewCepTemperature (MockWeatherApi (none, some ErrStatusInternalServer))
        (MockNominatimApi (some (nominatimAt (lit "80") (lit "100")), none)))).w.code
      = some 500 ∧
    (Setup (lit "11111111")
      (NewCepTemperature (MockWeatherApi (none, some ErrStatusInternalServer))
        (MockNominatimApi (some (nominatimAt (lit "80") (lit "100")), none)))).w.body
      = [.responseError { Message := lit "internal error", Code := 500 }] ∧
    (Setup (lit "11111111")
      (NewCepTemperature (MockWeatherApi (none, some ErrStatusInternalServer))
        (MockNominatimApi (some (nominatimAt (lit "80") (lit "100")), none)))).calls
      = [.GetLocation (lit "11111111"), .GetWeather (lit "80") (lit "100")] ∧
    (Setup (lit "11111111")
      (NewCepTemperature (MockWeatherApi (none, some ErrStatusInternalServer))
        (MockNominatimApi (some (nominatimAt (lit "80") (lit "100")), none)))).log
      = [ErrStatusInternalServer] :=
  ⟨by decide,
    (weather_failure_is_500
      (NewCepTemperature (MockWeatherApi (none, some ErrStatusInternalServer))
        (MockNominatimApi (some (nominatimAt (lit "80") (lit "100")), none)))
      (httptest.NewRequest.SetPathValue (lit "cep") (lit "11111111")) 0 1 2
      (nominatimAt (lit "80") (lit "100")) none ErrStatusInternalServer
      (by decide) rfl rfl).2⟩

/-- C8. The answer to the client does not depend on which upstream error occurred.
For a postal code of length 8 and two errors `e1`, `e2`, neither the sentinel
`nominatim.ErrNotFound`: two lookups in which `GetLocation` fails, with `e1` in
one and `e2` in the other, write the same response, which is status 500 with
the fixed message `internal error`; and so do two lookups in which `GetLocation`
succeeds alike and `GetWeather` fails, with `e1` in one and `e2` in the other.
The errors themselves only reach the log. -/
theorem upstream_error_not_leaked {σ : Type} (ct1 ct2 : CepTemperature σ) (r : http.Request)
    (s : σ) (e1 e2 : GoError)
    (hlen : len (r.PathValue (lit "cep")) = 8)
    (h1 : e1 ≠ GoError.ErrNotFound) (h2 : e2 ≠ GoError.ErrNotFound) :
    (∀ (p1 p2 : Option nominatim.Nominatim) (s1 s2 : σ),
      ct1.nominatim.GetLocation (r.PathValue (lit "cep")) s = ((p1, some e1), s1) →
      ct2.nominatim.GetLocation (r.PathValue (lit "cep")) s = ((p2, some e2), s2) →
      (ct1.GetCepTemperatureHandler httptest.NewRecorder r s).w =
        (ct2.GetCepTemperatureHandler httptest.NewRecorder r s).w ∧
      (ct1.GetCepTemperatureHandler httptest.NewRecorder r s).panicked =
        (ct2.GetCepTemperatureHandler httptest.NewRecorder r s).panicked ∧
      (ct1.GetCepTemperatureHandler httptest.NewRecorder r s).w.code = some 500 ∧
      (ct1.GetCepTemperatureHandler httptest.NewRecorder r s).w.body =
        [.responseError { Message := lit "internal error", Code := 500 }] ∧
      (ct1.GetCepTemperatureHandler httptest.NewRecorder r s).log = [e1] ∧
      (ct2.GetCepTemperatureHandler httptest.NewRecorder r s).log = [e2]) ∧
    (∀ (location : nominatim.Nominatim) (p1 p2 : Option weather.Weather) (s1 s2 t2 : σ),
      ct1.nominatim.GetLocation (r.PathValue (lit "cep")) s = ((some location, none), s1) →
      ct2.nominatim.GetLocation (r.PathValue (lit "cep")) s = ((some location, none), s1) →
      ct1.weather.GetWeather location.Lat location.Lon s1 = ((p1, some e1), s2) →
      ct2.weather.GetWeather location.Lat location.Lon s1 = ((p2, some e2), t2) →
      (ct1.GetCepTemperatureHandler httptest.NewRecorder r s).w =
        (ct2.GetCepTemperatureHandler httptest.NewRecorder r s).w ∧
      (ct1.GetCepTemperatureHandler httptest.NewRecorder r s).panicked =
        (ct2.GetCepTemperatureHandler httptest.NewRecorder r s).panicked ∧
      (ct1.GetCepTemperatureHandler httptest.NewRecorder r s).w.code = some 500 ∧
      (ct1.GetCepTemperatureHandler httptest.NewRecorder r s).w.body =
        [.responseError { Message := lit "internal error", Code := 500 }] ∧
      (ct1.GetCepTemperatureHandler httptest.NewRecorder r s).log = [e1] ∧
      (ct2.GetCepTemperatureHandler httptest.NewRecorder r s).log = [e2]) := by
  constructor
  · intro p1 p2 s1 s2 g1 g2
    simp [CepTemperature.GetCepTemperatureHandler, hlen, g1, g2, h1, h2, ToError_NewRecorder,
      ErrStatusInternalServer, errors.New, GoError.Error, http.StatusInternalServerError]
  · intro location p1 p2 s1 s2 t2 g1 g2 w1 w2
    simp [CepTemperature.GetCepTemperatureHandler, hlen, g1, g2, w1, w2, ToError_NewRecorder,
      ErrStatusInternalServer, errors.New, GoError.Error, http.StatusInternalServerError]

/-- Witness of C8: two different transport errors, at the geocoder and at the
weather provider, leave the same response. -/
theorem upstream_error_not_leaked_witness :
    len ((httptest.NewRequest.SetPathValue (lit "cep") (lit "00000000")).PathValue (lit "cep"))
      = 8 ∧
    errors.New (lit "dial tcp: connection refused") ≠ GoError.ErrNotFound ∧
    errors.New (lit "unexpected end of JSON input") ≠ GoError.ErrNotFound ∧
    (Setup (lit "00000000")
      (NewCepTemperature (MockWeatherApi (none, none))
        (MockNominatimApi (none, some (errors.New (lit "dial tcp: connection refused")))))).w
    = (Setup (lit "00000000")
      (NewCepTemperature (MockWeatherApi (none, none))
        (MockNominatimApi (none, some (errors.New (lit "unexpected end of JSON input")))))).w ∧
    (Setup (lit "00000000")
      (NewCepTemperature (MockWeatherApi (none, some (errors.New (lit "dial tcp: connection refused"))))
        (MockNominatimApi (some (nominatimAt (lit "80") (lit "100")), none)))).w
    = (Setup (lit "00000000")
      (NewCepTemperature (MockWeatherApi (none, some (errors.New (lit "unexpected end of JSON input"))))
        (MockNominatimApi (some (nominatimAt (lit "80") (lit "100")), none)))).w :=
  ⟨by decide, by decide, by decide,
    ((upstream_error_not_leaked
      (NewCepTemperature (MockWeatherApi (none, none))
        (MockNominatimApi (none, some (errors.New (lit "dial tcp: connection refused")))))
      (NewCepTemperature (MockWeatherApi (none, none))
        (MockNominatimApi (none, some (errors.New (lit "unexpected end of JSON input")))))
      (httptest.NewRequest.SetPathValue (lit "cep") (lit "00000000")) 0
      (errors.New (lit "dial tcp: connection refused"))
      (errors.New (lit "unexpected end of JSON input"))
      (by decide) (by decide) (by decide)).1 none none 1 1 rfl rfl).1,
    ((upstream_error_not_leaked
      (NewCepTemperature (MockWeatherApi (none, some (errors.New (lit "dial tcp: connection refused"))))
        (MockNominatimApi (some (nominatimAt (lit "80") (lit "100")), none)))
      (NewCepTemperature (MockWeatherApi (none, some (errors.New (lit "unexpected end of JSON input"))))
        (MockNominatimApi (some (nominatimAt (lit "80") (lit "100")), none)))
      (httptest.NewRequest.SetPathValue (lit "cep") (lit "00000000")) 0
      (errors.New (lit "dial tcp: connection refused"))
      (errors.New (lit "unexpected end of JSON input"))
      (by decide) (by decide) (by decide)).2
        (nominatimAt (lit "80") (lit "100")) none none 1 2 2 rfl rfl rfl rfl).1⟩

/-- C10. The handler keeps no state of its own.  When the answers of the two
dependencies do not depend on the state of the outside world (they behave
identically at every call), a lookup started in any state `t`, in particular
the state left behind by any earlier lookup on the same `CepTemperature`,
writes the same response, panics alike, makes the same calls in the same
order and logs the same errors as the lookup started in the state `s`. -/
theorem lookup_stateless {σ : Type} (ct : CepTemperature σ) (w : ResponseWriter)
    (r : http.Request) (s t : σ)
    (hgeo : ∀ (cep : GoString) (a b : σ),
      (ct.nominatim.GetLocation cep a).1 = (ct.nominatim.GetLocation cep b).1)
    (hwea : ∀ (lat lon : GoString) (a b : σ),
      (ct.weather.GetWeather lat lon a).1 = (ct.weather.GetWeather lat lon b).1) :
    ((ct.GetCepTemperatureHandler w r t).w = (ct.GetCepTemperatureHandler w r s).w ∧
     (ct.GetCepTemperatureHandler w r t).panicked = (ct.GetCepTemperatureHandler w r s).panicked ∧
     (ct.GetCepTemperatureHandler w r t).calls = (ct.GetCepTemperatureHandler w r s).calls ∧
     (ct.GetCepTemperatureHandler w r t).log = (ct.GetCepTemperatureHandler w r s).log) ∧
    (∀ (w0 : ResponseWriter) (r0 : http.Request),
     (ct.GetCepTemperatureHandler w r (ct.GetCepTemperatureHandler w0 r0 s).world).w =
       (ct.GetCepTemperatureHandler w r s).w ∧
     (ct.GetCepTemperatureHandler w r (ct.GetCepTemperatureHandler w0 r0 s).world).panicked =
       (ct.GetCepTemperatureHandler w r s).panicked ∧
     (ct.GetCepTemperatureHandler w r (ct.GetCepTemperatureHandler w0 r0 s).world).calls =
       (ct.GetCepTemperatureHandler w r s).calls ∧
     (ct.GetCepTemperatureHandler w r (ct.GetCepTemperatureHandler w0 r0 s).world).log =
       (ct.GetCepTemperatureHandler w r s).log) := by
  have key : ∀ a b : σ,
      (ct.GetCepTemperatureHandler w r a).w = (ct.GetCepTemperatureHandler w r b).w ∧
      (ct.GetCepTemperatureHandler w r a).panicked = (ct.GetCepTemperatureHandler w r b).panicked ∧
      (ct.GetCepTemperatureHandler w r a).calls = (ct.GetCepTemperatureHandler w r b).calls ∧
      (ct.GetCepTemperatureHandler w r a).log = (ct.GetCepTemperatureHandler w r b).log := by
    intro a b
    by_cases hlen : len (r.PathValue (lit "cep")) = 8
    · have g := hgeo (r.PathValue (lit "cep")) a b
      rcases ha : ct.nominatim.GetLocation (r.PathValue (lit "cep")) a with ⟨⟨pa, ea⟩, a1⟩
      rcases hb : ct.nominatim.GetLocation (r.PathValue (lit "cep")) b with ⟨⟨pb, eb⟩, b1⟩
      rw [ha, hb] at g
      simp only [Prod.mk.injEq] at g
      obtain ⟨rfl, rfl⟩ := g
      cases ea with
      | some e =>
        by_cases he : e = GoError.ErrNotFound <;>
        simp [CepTemperature.GetCepTemperatureHandler, hlen, ha, hb, he]
      | none =>
        cases pa with
        | none => simp [CepTemperature.GetCepTemperatureHandler, hlen, ha, hb]
        | some location =>
          have g2 := hwea location.Lat location.Lon a1 b1
          rcases hwa : ct.weather.GetWeather location.Lat location.Lon a1 with ⟨⟨qa, fa⟩, a2⟩
          rcases hwb : ct.weather.GetWeather location.Lat location.Lon b1 with ⟨⟨qb, fb⟩, b2⟩
          rw [hwa, hwb] at g2
          simp only [Prod.mk.injEq] at g2
          obtain ⟨rfl, rfl⟩ := g2
          cases fa with
          | some e => simp [CepTemperature.GetCepTemperatureHandler, hlen, ha, hb, hwa, hwb]
          | none =>
            cases qa with
            | none => simp [CepTemperature.GetCepTemperatureHandler, hlen, ha, hb, hwa, hwb]
            | some reading =>
              simp [CepTemperature.GetCepTemperatureHandler, hlen, ha, hb, hwa, hwb]
    · simp [CepTemperature.GetCepTemperatureHandler, hlen]
  exact ⟨key t s, fun w0 r0 => key _ s⟩

/-- Witness of C10: with the test doubles, a lookup of `00000000` made after a
lookup of `180862`, or after a lookup of `00000000`, writes what the first
lookup of `00000000` writes, although the doubles have counted calls. -/
theorem lookup_stateless_witness :
    ((NewCepTemperature (MockWeatherApi (some ⟨⟨ofInt 20, ofInt 40⟩⟩, none))
        (MockNominatimApi (some (nominatimAt (lit "80") (lit "100")), none))).GetCepTemperatureHandler
        httptest.NewRecorder (httptest.NewRequest.SetPathValue (lit "cep") (lit "00000000"))
        (Setup (lit "180862")
          (NewCepTemperature (MockWeatherApi (some ⟨⟨ofInt 20, ofInt 40⟩⟩, none))
            (MockNominatimApi (some (nominatimAt (lit "80") (lit "100")), none)))).world).w =
    (Setup (lit "00000000")
      (NewCepTemperature (MockWeatherApi (some ⟨⟨ofInt 20, ofInt 40⟩⟩, none))
        (MockNominatimApi (some (nominatimAt (lit "80") (lit "100")), none)))).w ∧
    ((NewCepTemperature (MockWeatherApi (some ⟨⟨ofInt 20, ofInt 40⟩⟩, none))
        (MockNominatimApi (some (nominatimAt (lit "80") (lit "100")), none))).GetCepTemperatureHandler
        httptest.NewRecorder (httptest.NewRequest.SetPathValue (lit "cep") (lit "00000000"))
        (Setup (lit "00000000")
          (NewCepTemperature (MockWeatherApi (some ⟨⟨ofInt 20, ofInt 40⟩⟩, none))
            (MockNominatimApi (some (nominatimAt (lit "80") (lit "100")), none)))).world).w =
    (Setup (lit "00000000")
      (NewCepTemperature (MockWeatherApi (some ⟨⟨ofInt 20, ofInt 40⟩⟩, none))
        (MockNominatimApi (some (nominatimAt (lit "80") (lit "100")), none)))).w ∧
    (Setup (lit "00000000")
      (NewCepTemperature (MockWeatherApi (some ⟨⟨ofInt 20, ofInt 40⟩⟩, none))
        (MockNominatimApi (some (nominatimAt (lit "80") (lit "100")), none)))).world = 2 :=
  ⟨((lookup_stateless
      (NewCepTemperature (MockWeatherApi (some ⟨⟨ofInt 20, ofInt 40⟩⟩, none))
        (MockNominatimApi (some (nominatimAt (lit "80") (lit "100")), none)))
      httptest.NewRecorder (httptest.NewRequest.SetPathValue (lit "cep") (lit "00000000")) 0 0
      (fun _ _ _ => rfl) (fun _ _ _ _ => rfl)).2 httptest.NewRecorder
        (httptest.NewRequest.SetPathValue (lit "cep") (lit "180862"))).1,
   ((lookup_stateless
      (NewCepTemperature (MockWeatherApi (some ⟨⟨ofInt 20, ofInt 40⟩⟩, none))
        (MockNominatimApi (some (nominatimAt (lit "80") (lit "100")), none)))
      httptest.NewRecorder (httptest.NewRequest.SetPathValue (lit "cep") (lit "00000000")) 0 0
      (fun _ _ _ => rfl) (fun _ _ _ _ => rfl)).2 httptest.NewRecorder
        (httptest.NewRequest.SetPathValue (lit "cep") (lit "00000000"))).1,
   by decide⟩

set_option exponentiation.threshold 4000 in
set_option maxRecDepth 10000 in
/-- C9 as stated fails.  When `GetLocation` returns a nil location with a nil
error, the handler dereferences the nil pointer and panics before anything is
written; when both calls succeed and the Celsius reading is `+Inf`, `ToJson`
panics after the status line and writes no body.  Either run yields neither
the 200 response nor one of the three error responses. -/
theorem no_response_on_panic :
    (Setup (lit "00000000")
      (NewCepTemperature (MockWeatherApi (none, none)) (MockNominatimApi (none, none)))).panicked
      = some Panic.nilDereference ∧
    (Setup (lit "00000000")
      (NewCepTemperature (MockWeatherApi (none, none)) (MockNominatimApi (none, none)))).w.code
      = none ∧
    (¬ ∃ doc : Payload,
      (Setup (lit "00000000")
        (NewCepTemperature (MockWeatherApi (none, none)) (MockNominatimApi (none, none)))).w.body
        = [doc]) ∧
    (Setup (lit "00000000")
      (NewCepTemperature (MockWeatherApi (some ⟨⟨.inf false, ofInt 40⟩⟩, none))
        (MockNominatimApi (some (nominatimAt (lit "80") (lit "100")), none)))).panicked
      = some Panic.unsupportedValue ∧
    (¬ ∃ doc : Payload,
      (Setup (lit "00000000")
        (NewCepTemperature (MockWeatherApi (some ⟨⟨.inf false, ofInt 40⟩⟩, none))
          (MockNominatimApi (some (nominatimAt (lit "80") (lit "100")), none)))).w.body
        = [doc]) := by
  have hb1 : (Setup (lit "00000000")
      (NewCepTemperature (MockWeatherApi (none, none)) (MockNominatimApi (none, none)))).w.body
      = [] := by decide
  have hb2 : (Setup (lit "00000000")
      (NewCepTemperature (MockWeatherApi (some ⟨⟨.inf false, ofInt 40⟩⟩, none))
        (MockNominatimApi (some (nominatimAt (lit "80") (lit "100")), none)))).w.body
      = [] := by decide
  refine ⟨by decide, by decide, ?_, by decide, ?_⟩
  · rintro ⟨doc, h⟩
    rw [hb1] at h
    cases h
  · rintro ⟨doc, h⟩
    rw [hb2] at h
    cases h

/-- C9, amended.  For every postal code and every behaviour of the two
dependencies, run on a fresh writer:
(1) the handler panics on a nil pointer if and only if the postal code has
length 8 and either `GetLocation` returns a nil location with a nil error, or
`GetLocation` succeeds and `GetWeather` returns a nil reading with a nil error;
(2) it panics in `ToJson` if and only if the postal code has length 8, both
calls succeed and one of the narrowed values `float32(C)`, `float32(F)`,
`float32(C + 273)` is an infinity or a NaN;
(3) a panic on a nil pointer leaves the writer untouched;
(4) a panic in `ToJson` leaves status 200 and no body;
(5) in every other case the handler produces exactly one response: either
status 200 with one `Response` document, or one `ResponseError` document equal
to one of `(invalid zipcode, 422)`, `(can not find zipcode, 404)`,
`(internal error, 500)`, the status written being the code in the body. -/
theorem response_classification {σ : Type} (ct : CepTemperature σ) (r : http.Request) (s : σ) :
    ((ct.GetCepTemperatureHandler httptest.NewRecorder r s).panicked
        = some Panic.nilDereference ↔
      len (r.PathValue (lit "cep")) = 8 ∧
      ((∃ s1 : σ, ct.nominatim.GetLocation (r.PathValue (lit "cep")) s = ((none, none), s1)) ∨
       (∃ (location : nominatim.Nominatim) (s1 s2 : σ),
          ct.nominatim.GetLocation (r.PathValue (lit "cep")) s = ((some location, none), s1) ∧
          ct.weather.GetWeather location.Lat location.Lon s1 = ((none, none), s2)))) ∧
    ((ct.GetCepTemperatureHandler httptest.NewRecorder r s).panicked
        = some Panic.unsupportedValue ↔
      len (r.PathValue (lit "cep")) = 8 ∧
      ∃ (location : nominatim.Nominatim) (reading : weather.Weather) (s1 s2 : σ),
        ct.nominatim.GetLocation (r.PathValue (lit "cep")) s = ((some location, none), s1) ∧
        ct.weather.GetWeather location.Lat location.Lon s1 = ((some reading, none), s2) ∧
        ¬ ((float32 reading.Current.TempC).isFinite = true ∧
           (float32 reading.Current.TempF).isFinite = true ∧
           (float32 (add64 reading.Current.TempC (ofInt 273))).isFinite = true)) ∧
    ((ct.GetCepTemperatureHandler httptest.NewRecorder r s).panicked
        = some Panic.nilDereference →
      (ct.GetCepTemperatureHandler httptest.NewRecorder r s).w = httptest.NewRecorder) ∧
    ((ct.GetCepTemperatureHandler httptest.NewRecorder r s).panicked
        = some Panic.unsupportedValue →
      (ct.GetCepTemperatureHandler httptest.NewRecorder r s).w.code = some 200 ∧
      (ct.GetCepTemperatureHandler httptest.NewRecorder r s).w.body = []) ∧
    ((ct.GetCepTemperatureHandler httptest.NewRecorder r s).panicked = none →
      ((ct.GetCepTemperatureHandler httptest.NewRecorder r s).w.code = some 200 ∧
        ∃ resp : Response,
          (ct.GetCepTemperatureHandler httptest.NewRecorder r s).w.body = [.response resp]) ∨
      (∃ e : ResponseError,
        (ct.GetCepTemperatureHandler httptest.NewRecorder r s).w.body = [.responseError e] ∧
        (ct.GetCepTemperatureHandler httptest.NewRecorder r s).w.code = some e.Code ∧
        (e = { Message := lit "invalid zipcode", Code := 422 } ∨
         e = { Message := lit "can not find zipcode", Code := 404 } ∨
         e = { Message := lit "internal error", Code := 500 }))) := by
  by_cases hlen : len (r.PathValue (lit "cep")) = 8
  · rcases hg : ct.nominatim.GetLocation (r.PathValue (lit "cep")) s with ⟨⟨p, e⟩, s1⟩
    cases e with
    | some e =>
      by_cases he : e = GoError.ErrNotFound <;>
      simp [CepTemperature.GetCepTemperatureHandler, hlen, hg, he, ToError_NewRecorder,
        ErrNotFoundZipCode, ErrStatusInternalServer, errors.New, GoError.Error,
        http.StatusNotFound, http.StatusInternalServerError]
    | none =>
      cases p with
      | none => simp [CepTemperature.GetCepTemperatureHandler, hlen, hg]
      | some location =>
        rcases hw : ct.weather.GetWeather location.Lat location.Lon s1 with ⟨⟨q, f⟩, s2⟩
        cases f with
        | some e =>
          simp [CepTemperature.GetCepTemperatureHandler, hlen, hg, hw, ToError_NewRecorder,
            ErrStatusInternalServer, errors.New, GoError.Error, http.StatusInternalServerError]
          intro x x1 hx x2 h
          subst hx
          rw [hw] at h
          simp at h
        | none =>
          cases q with
          | none =>
            simp [CepTemperature.GetCepTemperatureHandler, hlen, hg, hw]
            refine ⟨⟨location, s1, ⟨rfl, rfl⟩, s2, hw⟩, ?_⟩
            intro x x1 hx x2 h
            subst hx
            rw [hw] at h
            simp at h
          | some reading =>
            by_cases hfin : ((float32 reading.Current.TempC).isFinite = true ∧
                (float32 reading.Current.TempF).isFinite = true ∧
                (float32 (add64 reading.Current.TempC (ofInt 273))).isFinite = true)
            · simp [CepTemperature.GetCepTemperatureHandler, hlen, hg, hw, ToJson_NewRecorder,
                json.Encode, hfin, http.StatusOK]
              intro x x1 hx x2 h
              subst hx
              rw [hw] at h
              simp only [Prod.mk.injEq, Option.some.injEq, and_true] at h
              obtain ⟨rfl, _⟩ := h
              exact hfin
            · have henc : json.Encode (.response {
                  TempC := float32 reading.Current.TempC
                  TempF := float32 reading.Current.TempF
                  TempK := float32 (add64 reading.Current.TempC (ofInt 273)) }) = none := by
                simp only [json.Encode, Bool.and_eq_true]
                rw [if_neg (fun h => hfin ⟨h.1.1, h.1.2, h.2⟩)]
              simp [CepTemperature.GetCepTemperatureHandler, hlen, hg, hw, ToJson_NewRecorder,
                henc, hfin, http.StatusOK]
              refine ⟨location, reading, s1, ⟨rfl, rfl⟩, ⟨s2, hw⟩, fun a b => ?_⟩
              cases hk : (float32 (add64 reading.Current.TempC (ofInt 273))).isFinite
              · rfl
              · exact absurd ⟨a, b, hk⟩ hfin
  · simp [CepTemperature.GetCepTemperatureHandler, hlen, ToError_NewRecorder,
      ErrInvalidZipCode, errors.New, GoError.Error, http.StatusUnprocessableEntity]

set_option exponentiation.threshold 4000 in
set_option maxRecDepth 10000 in
/-- C5 as stated fails: with the postal code `00000000`, `GetLocation` succeeding
with `("80", "100")` and `GetWeather`, called with exactly those, succeeding
with the `float64` reading `C = 2^128`, `F = 40`, the narrowed `C` is `+Inf`,
`json` refuses to encode it and `ToJson` panics after the status line: no body
is written.  The same happens for the reading `C = +Inf`. -/
theorem no_body_when_narrowing_overflows :
    len ((httptest.NewRequest.SetPathValue (lit "cep") (lit "00000000")).PathValue (lit "cep"))
      = 8 ∧
    GoFloat.convert binary64 (.fin false (2 ^ 1202)) = .fin false (2 ^ 1202) ∧
    float32 (.fin false (2 ^ 1202)) = .inf false ∧
    (Setup (lit "00000000")
      (NewCepTemperature (MockWeatherApi (some ⟨⟨.fin false (2 ^ 1202), ofInt 40⟩⟩, none))
        (MockNominatimApi (some (nominatimAt (lit "80") (lit "100")), none)))).calls
      = [.GetLocation (lit "00000000"), .GetWeather (lit "80") (lit "100")] ∧
    (Setup (lit "00000000")
      (NewCepTemperature (MockWeatherApi (some ⟨⟨.fin false (2 ^ 1202), ofInt 40⟩⟩, none))
        (MockNominatimApi (some (nominatimAt (lit "80") (lit "100")), none)))).panicked
      = some Panic.unsupportedValue ∧
    (Setup (lit "00000000")
      (NewCepTemperature (MockWeatherApi (some ⟨⟨.fin false (2 ^ 1202), ofInt 40⟩⟩, none))
        (MockNominatimApi (some (nominatimAt (lit "80") (lit "100")), none)))).w.body
      = [] ∧
    (Setup (lit "00000000")
      (NewCepTemperature (MockWeatherApi (some ⟨⟨.fin false (2 ^ 1202), ofInt 40⟩⟩, none))
        (MockNominatimApi (some (nominatimAt (lit "80") (lit "100")), none)))).w.body
      ≠ [.response {
          TempC := float32 (.fin false (2 ^ 1202))
          TempF := float32 (ofInt 40)
          TempK := float32 (add64 (.fin false (2 ^ 1202)) (ofInt 273)) }] ∧
    (Setup (lit "00000000")
      (NewCepTemperature (MockWeatherApi (some ⟨⟨.inf false, ofInt 40⟩⟩, none))
        (MockNominatimApi (some (nominatimAt (lit "80") (lit "100")), none)))).panicked
      = some Panic.unsupportedValue ∧
    (Setup (lit "00000000")
      (NewCepTemperature (MockWeatherApi (some ⟨⟨.inf false, ofInt 40⟩⟩, none))
        (MockNominatimApi (some (nominatimAt (lit "80") (lit "100")), none)))).w.body
      = [] := by
  decide

/-- C5, amended.  For a postal code of length 8, when `GetLocation` succeeds with
a location whose coordinates are `(Lat, Lon)` and `GetWeather` called with
exactly `(Lat, Lon)` succeeds with a reading `(C, F)`, status 200 is written
and the calls are `GetLocation` then `GetWeather`.  When the three narrowed
values `float32(C)`, `float32(F)`, `float32(C + 273)` are finite, the handler
does not panic and the body is `temp_c = float32(C)`, `temp_f = float32(F)`,
`temp_k = float32(C + 273)`, the sum being taken on the `float64` reading.
When any of the three is an infinity or a NaN, `ToJson` panics and no body is
written. -/
theorem success_response {σ : Type} (ct : CepTemperature σ) (r : http.Request)
    (s s1 s2 : σ) (location : nominatim.Nominatim) (reading : weather.Weather)
    (hlen : len (r.PathValue (lit "cep")) = 8)
    (hgeo : ct.nominatim.GetLocation (r.PathValue (lit "cep")) s = ((some location, none), s1))
    (hwea : ct.weather.GetWeather location.Lat location.Lon s1 = ((some reading, none), s2)) :
    (ct.GetCepTemperatureHandler httptest.NewRecorder r s).w.code = some 200 ∧
    (ct.GetCepTemperatureHandler httptest.NewRecorder r s).calls =
      [.GetLocation (r.PathValue (lit "cep")), .GetWeather location.Lat location.Lon] ∧
    (((float32 reading.Current.TempC).isFinite = true ∧
      (float32 reading.Current.TempF).isFinite = true ∧
      (float32 (add64 reading.Current.TempC (ofInt 273))).isFinite = true) →
      (ct.GetCepTemperatureHandler httptest.NewRecorder r s).panicked = none ∧
      (ct.GetCepTemperatureHandler httptest.NewRecorder r s).w.body =
        [.response {
            TempC := float32 reading.Current.TempC
            TempF := float32 reading.Current.TempF
            TempK := float32 (add64 reading.Current.TempC (ofInt 273)) }]) ∧
    (¬ ((float32 reading.Current.TempC).isFinite = true ∧
        (float32 reading.Current.TempF).isFinite = true ∧
        (float32 (add64 reading.Current.TempC (ofInt 273))).isFinite = true) →
      (ct.GetCepTemperatureHandler httptest.NewRecorder r s).panicked
        = some Panic.unsupportedValue ∧
      (ct.GetCepTemperatureHandler httptest.NewRecorder r s).w.body = []) := by
  by_cases hfin : ((float32 reading.Current.TempC).isFinite = true ∧
      (float32 reading.Current.TempF).isFinite = true ∧
      (float32 (add64 reading.Current.TempC (ofInt 273))).isFinite = true)
  · have henc : json.Encode (.response {
        TempC := float32 reading.Current.TempC
        TempF := float32 reading.Current.TempF
        TempK := float32 (add64 reading.Current.TempC (ofInt 273)) }) = some (.response {
        TempC := float32 reading.Current.TempC
        TempF := float32 reading.Current.TempF
        TempK := float32 (add64 reading.Current.TempC (ofInt 273)) }) := by
      simp only [json.Encode, Bool.and_eq_true]
      rw [if_pos ⟨⟨hfin.1, hfin.2.1⟩, hfin.2.2⟩]
    refine ⟨?_, ?_, fun _ => ⟨?_, ?_⟩, fun h => absurd hfin h⟩ <;>
    simp [CepTemperature.GetCepTemperatureHandler, hlen, hgeo, hwea, ToJson_NewRecorder,
      henc, http.StatusOK]
  · have henc : json.Encode (.response {
        TempC := float32 reading.Current.TempC
        TempF := float32 reading.Current.TempF
        TempK := float32 (add64 reading.Current.TempC (ofInt 273)) }) = none := by
      simp only [json.Encode, Bool.and_eq_true]
      rw [if_neg (fun h => hfin ⟨h.1.1, h.1.2, h.2⟩)]
    refine ⟨?_, ?_, fun h => absurd h hfin, fun _ => ⟨?_, ?_⟩⟩ <;>
    simp [CepTemperature.GetCepTemperatureHandler, hlen, hgeo, hwea, ToJson_NewRecorder,
      henc, http.StatusOK]

set_option exponentiation.threshold 4000 in
set_option maxRecDepth 10000 in
/-- Witness of C5 (amended).  The case of `TestResultSuccess`, `("80", "100")`,
`C = 20`, `F = 40`, gives status 200 and `temp_c = 20`, `temp_f = 40`,
`temp_k = 293`; with `F` a NaN instead, `ToJson` panics and no body is
written; with `C = 2^128`, likewise. -/
theorem success_response_witness :
    len ((httptest.NewRequest.SetPathValue (lit "cep") (lit "00000000")).PathValue (lit "cep"))
      = 8 ∧
    (Setup (lit "00000000")
      (NewCepTemperature (MockWeatherApi (some ⟨⟨ofInt 20, ofInt 40⟩⟩, none))
        (MockNominatimApi (some (nominatimAt (lit "80") (lit "100")), none)))).w.code
      = some 200 ∧
    (Setup (lit "00000000")
      (NewCepTemperature (MockWeatherApi (some ⟨⟨ofInt 20, ofInt 40⟩⟩, none))
        (MockNominatimApi (some (nominatimAt (lit "80") (lit "100")), none)))).calls
      = [.GetLocation (lit "00000000"), .GetWeather (lit "80") (lit "100")] ∧
    (Setup (lit "00000000")
      (NewCepTemperature (MockWeatherApi (some ⟨⟨ofInt 20, ofInt 40⟩⟩, none))
        (MockNominatimApi (some (nominatimAt (lit "80") (lit "100")), none)))).panicked
      = none ∧
    (Setup (lit "00000000")
      (NewCepTemperature (MockWeatherApi (some ⟨⟨ofInt 20, ofInt 40⟩⟩, none))
        (MockNominatimApi (some (nominatimAt (lit "80") (lit "100")), none)))).w.body
      = [.response { TempC := ofInt 20, TempF := ofInt 40, TempK := ofInt 293 }] ∧
    (Setup (lit "00000000")
      (NewCepTemperature (MockWeatherApi (some ⟨⟨ofInt 20, .nan⟩⟩, none))
        (MockNominatimApi (some (nominatimAt (lit "80") (lit "100")), none)))).panicked
      = some Panic.unsupportedValue ∧
    (Setup (lit "00000000")
      (NewCepTemperature (MockWeatherApi (some ⟨⟨ofInt 20, .nan⟩⟩, none))
        (MockNominatimApi (some (nominatimAt (lit "80") (lit "100")), none)))).w.body
      = [] ∧
    (Setup (lit "00000000")
      (NewCepTemperature (MockWeatherApi (some ⟨⟨.fin false (2 ^ 1202), ofInt 40⟩⟩, none))
        (MockNominatimApi (some (nominatimAt (lit "80") (lit "100")), none)))).w.body
      = [] :=
  ⟨by decide,
    (success_response
      (NewCepTemperature (MockWeatherApi (some ⟨⟨ofInt 20, ofInt 40⟩⟩, none))
        (MockNominatimApi (some (nominatimAt (lit "80") (lit "100")), none)))
      (httptest.NewRequest.SetPathValue (lit "cep") (lit "00000000")) 0 1 2
      (nominatimAt (lit "80") (lit "100")) ⟨⟨ofInt 20, ofInt 40⟩⟩
      (by decide) rfl rfl).1,
    (success_response
      (NewCepTemperature (MockWeatherApi (some ⟨⟨ofInt 20, ofInt 40⟩⟩, none))
        (MockNominatimApi (some (nominatimAt (lit "80") (lit "100")), none)))
      (httptest.NewRequest.SetPathValue (lit "cep") (lit "00000000")) 0 1 2
      (nominatimAt (lit "80") (lit "100")) ⟨⟨ofInt 20, ofInt 40⟩⟩
      (by decide) rfl rfl).2.1,
    ((success_response
      (NewCepTemperature (MockWeatherApi (some ⟨⟨ofInt 20, ofInt 40⟩⟩, none))
        (MockNominatimApi (some (nominatimAt (lit "80") (lit "100")), none)))
      (httptest.NewRequest.SetPathValue (lit "cep") (lit "00000000")) 0 1 2
      (nominatimAt (lit "80") (lit "100")) ⟨⟨ofInt 20, ofInt 40⟩⟩
      (by decide) rfl rfl).2.2.1 (by decide)).1,
    (((success_response
      (NewCepTemperature (MockWeatherApi (some ⟨⟨ofInt 20, ofInt 40⟩⟩, none))
        (MockNominatimApi (some (nominatimAt (lit "80") (lit "100")), none)))
      (httptest.NewRequest.SetPathValue (lit "cep") (lit "00000000")) 0 1 2
      (nominatimAt (lit "80") (lit "100")) ⟨⟨ofInt 20, ofInt 40⟩⟩
      (by decide) rfl rfl).2.2.1 (by decide)).2).trans (by decide),
    ((success_response
      (NewCepTemperature (MockWeatherApi (some ⟨⟨ofInt 20, .nan⟩⟩, none))
        (MockNominatimApi (some (nominatimAt (lit "80") (lit "100")), none)))
      (httptest.NewRequest.SetPathValue (lit "cep") (lit "00000000")) 0 1 2
      (nominatimAt (lit "80") (lit "100")) ⟨⟨ofInt 20, .nan⟩⟩
      (by decide) rfl rfl).2.2.2 (by decide)).1,
    ((success_response
      (NewCepTemperature (MockWeatherApi (some ⟨⟨ofInt 20, .nan⟩⟩, none))
        (MockNominatimApi (some (nominatimAt (lit "80") (lit "100")), none)))
      (httptest.NewRequest.SetPathValue (lit "cep") (lit "00000000")) 0 1 2
      (nominatimAt (lit "80") (lit "100")) ⟨⟨ofInt 20, .nan⟩⟩
      (by decide) rfl rfl).2.2.2 (by decide)).2,
    ((success_response
      (NewCepTemperature (MockWeatherApi (some ⟨⟨.fin false (2 ^ 1202), ofInt 40⟩⟩, none))
        (MockNominatimApi (some (nominatimAt (lit "80") (lit "100")), none)))
      (httptest.NewRequest.SetPathValue (lit "cep") (lit "00000000")) 0 1 2
      (nominatimAt (lit "80") (lit "100")) ⟨⟨.fin false (2 ^ 1202), ofInt 40⟩⟩
      (by decide) rfl rfl).2.2.2 (by decide)).2⟩

/-! ## Byte length and characters -/

theorem length_lit (str : String) : (lit str).length = str.utf8ByteSize := by
  simp [lit, ← String.size_toUTF8, ByteArray.size]

theorem utf8ByteSize_go_of_ascii (cs : List Char) (h : ∀ c ∈ cs, c.val ≤ 127) :
    String.utf8ByteSize.go cs = cs.length := by
  induction cs with
  | nil => rfl
  | cons c cs ih =>
    have hc : c.utf8Size = 1 := by
      have := h c (List.mem_cons_self _ _)
      simp [Char.utf8Size, this]
    have := ih (fun d hd => h d (List.mem_cons_of_mem _ hd))
    show String.utf8ByteSize.go cs + c.utf8Size = cs.length + 1
    rw [this, hc]

theorem len_lit_of_ascii (str : String) (h : ∀ c ∈ str.data, c.val ≤ 127) :
    len (lit str) = str.length := by
  have h1 : str.utf8ByteSize = str.length := by
    cases str with
    | mk cs => exact utf8ByteSize_go_of_ascii cs h
  simp [len, length_lit, h1]

/-- The calls of a run on a postal code of length 8 begin with `GetLocation` on
that postal code. -/
theorem calls_head_of_len_eight {σ : Type} (ct : CepTemperature σ) (w : ResponseWriter)
    (r : http.Request) (s : σ) (hlen : len (r.PathValue (lit "cep")) = 8) :
    (ct.GetCepTemperatureHandler w r s).calls.head? =
      some (.GetLocation (r.PathValue (lit "cep"))) := by
  rcases hg : ct.nominatim.GetLocation (r.PathValue (lit "cep")) s with ⟨⟨p, e⟩, s1⟩
  cases e with
  | some e =>
    by_cases he : e = GoError.ErrNotFound <;>
    simp [CepTemperature.GetCepTemperatureHandler, hlen, hg, he]
  | none =>
    cases p with
    | none => simp [CepTemperature.GetCepTemperatureHandler, hlen, hg]
    | some location =>
      rcases hw : ct.weather.GetWeather location.Lat location.Lon s1 with ⟨⟨q, f⟩, s2⟩
      cases f with
      | some e => simp [CepTemperature.GetCepTemperatureHandler, hlen, hg, hw]
      | none =>
        cases q with
        | none => simp [CepTemperature.GetCepTemperatureHandler, hlen, hg, hw]
        | some reading => simp [CepTemperature.GetCepTemperatureHandler, hlen, hg, hw]

set_option exponentiation.threshold 4000 in
set_option maxRecDepth 10000 in
/-- C7 as stated fails, both ways, when a character is a code point: `1234567é`
has 8 characters (9 bytes) and is rejected with 422 without any call, and
`é123456` has 7 characters (8 bytes), passes validation and is handed to
`GetLocation`. -/
theorem eight_characters_rejected :
    ("1234567é" : String).length = 8 ∧
    len (lit "1234567é") = 9 ∧
    (Setup (lit "1234567é")
      (NewCepTemperature (MockWeatherApi (some ⟨⟨ofInt 20, ofInt 40⟩⟩, none))
        (MockNominatimApi (some (nominatimAt (lit "80") (lit "100")), none)))).w.code
      = some 422 ∧
    (Setup (lit "1234567é")
      (NewCepTemperature (MockWeatherApi (some ⟨⟨ofInt 20, ofInt 40⟩⟩, none))
        (MockNominatimApi (some (nominatimAt (lit "80") (lit "100")), none)))).w.body
      = [.responseError { Message := lit "invalid zipcode", Code := 422 }] ∧
    (Setup (lit "1234567é")
      (NewCepTemperature (MockWeatherApi (some ⟨⟨ofInt 20, ofInt 40⟩⟩, none))
        (MockNominatimApi (some (nominatimAt (lit "80") (lit "100")), none)))).calls
      = [] ∧
    ("é123456" : String).length = 7 ∧
    len (lit "é123456") = 8 ∧
    (Setup (lit "é123456")
      (NewCepTemperature (MockWeatherApi (some ⟨⟨ofInt 20, ofInt 40⟩⟩, none))
        (MockNominatimApi (some (nominatimAt (lit "80") (lit "100")), none)))).w.code
      = some 200 ∧
    (Setup (lit "é123456")
      (NewCepTemperature (MockWeatherApi (some ⟨⟨ofInt 20, ofInt 40⟩⟩, none))
        (MockNominatimApi (some (nominatimAt (lit "80") (lit "100")), none)))).calls
      = [.GetLocation (lit "é123456"), .GetWeather (lit "80") (lit "100")] := by
  decide

/-- C7, amended.  A postal code is rejected as invalid input (status 422, body
`invalid zipcode`) if and only if its length in bytes, Go `len`, is not 8, and
no other structure is checked: every postal code of exactly 8 bytes, whatever
the bytes are, passes validation and is handed unchanged to `GetLocation` as
the first call, and every postal code with a different number of bytes is
rejected.  For a postal code written with ASCII characters only, the length in
bytes is the number of characters. -/
theorem rejected_iff_byte_length :
    (∀ (σ : Type) (ct : CepTemperature σ) (r : http.Request) (s : σ),
      ((ct.GetCepTemperatureHandler httptest.NewRecorder r s).w.code = some 422 ↔
        len (r.PathValue (lit "cep")) ≠ 8) ∧
      ((ct.GetCepTemperatureHandler httptest.NewRecorder r s).w.body =
          [.responseError { Message := lit "invalid zipcode", Code := 422 }] ↔
        len (r.PathValue (lit "cep")) ≠ 8) ∧
      (len (r.PathValue (lit "cep")) ≠ 8 →
        (ct.GetCepTemperatureHandler httptest.NewRecorder r s).panicked = none) ∧
      (len (r.PathValue (lit "cep")) = 8 →
        (ct.GetCepTemperatureHandler httptest.NewRecorder r s).calls.head? =
          some (.GetLocation (r.PathValue (lit "cep"))))) ∧
    (∀ str : String, (∀ c ∈ str.data, c.val ≤ 127) → len (lit str) = str.length) := by
  refine ⟨fun σ ct r s => ?_, len_lit_of_ascii⟩
  by_cases hlen : len (r.PathValue (lit "cep")) = 8
  · refine ⟨?_, ?_, fun h => absurd hlen h, fun _ => calls_head_of_len_eight ct _ r s hlen⟩
    · rcases hg : ct.nominatim.GetLocation (r.PathValue (lit "cep")) s with ⟨⟨p, e⟩, s1⟩
      cases e with
      | some e =>
        by_cases he : e = GoError.ErrNotFound <;>
        simp [CepTemperature.GetCepTemperatureHandler, hlen, hg, he, ToError_NewRecorder,
          http.StatusNotFound, http.StatusInternalServerError]
      | none =>
        cases p with
        | none =>
          simp [CepTemperature.GetCepTemperatureHandler, hlen, hg, httptest.NewRecorder]
        | some location =>
          rcases hw : ct.weather.GetWeather location.Lat location.Lon s1 with ⟨⟨q, f⟩, s2⟩
          cases f with
          | some e =>
            simp [CepTemperature.GetCepTemperatureHandler, hlen, hg, hw, ToError_NewRecorder,
              http.StatusInternalServerError]
          | none =>
            cases q with
            | none =>
              simp [CepTemperature.GetCepTemperatureHandler, hlen, hg, hw,
                httptest.NewRecorder]
            | some reading =>
              cases henc : json.Encode (.response {
                  TempC := float32 reading.Current.TempC
                  TempF := float32 reading.Current.TempF
                  TempK := float32 (add64 reading.Current.TempC (ofInt 273)) }) <;>
              simp [CepTemperature.GetCepTemperatureHandler, hlen, hg, hw, ToJson_NewRecorder,
                henc, http.StatusOK]
    · rcases hg : ct.nominatim.GetLocation (r.PathValue (lit "cep")) s with ⟨⟨p, e⟩, s1⟩
      cases e with
      | some e =>
        by_cases he : e = GoError.ErrNotFound <;>
        simp [CepTemperature.GetCepTemperatureHandler, hlen, hg, he, ToError_NewRecorder,
          http.StatusNotFound, http.StatusInternalServerError]
      | none =>
        cases p with
        | none =>
          simp [CepTemperature.GetCepTemperatureHandler, hlen, hg, httptest.NewRecorder]
        | some location =>
          rcases hw : ct.weather.GetWeather location.Lat location.Lon s1 with ⟨⟨q, f⟩, s2⟩
          cases f with
          | some e =>
            simp [CepTemperature.GetCepTemperatureHandler, hlen, hg, hw, ToError_NewRecorder,
              http.StatusInternalServerError]
          | none =>
            cases q with
            | none =>
              simp [CepTemperature.GetCepTemperatureHandler, hlen, hg, hw,
                httptest.NewRecorder]
            | some reading =>
              cases henc : json.Encode (.response {
                  TempC := float32 reading.Current.TempC
                  TempF := float32 reading.Current.TempF
                  TempK := float32 (add64 reading.Current.TempC (ofInt 273)) }) with
              | none =>
                simp [CepTemperature.GetCepTemperatureHandler, hlen, hg, hw,
                  ToJson_NewRecorder, henc, http.StatusOK]
              | some doc =>
                have hdoc : doc = .response {
                    TempC := float32 reading.Current.TempC
                    TempF := float32 reading.Current.TempF
                    TempK := float32 (add64 reading.Current.TempC (ofInt 273)) } := by
                  simp only [json.Encode] at henc
                  split at henc
                  · exact (Option.some.inj henc).symm
                  · cases henc
                simp [CepTemperature.GetCepTemperatureHandler, hlen, hg, hw,
                  ToJson_NewRecorder, henc, hdoc, http.StatusOK]
  · simp [CepTemperature.GetCepTemperatureHandler, hlen, ToError_NewRecorder,
      ErrInvalidZipCode, errors.New, GoError.Error, http.StatusUnprocessableEntity]

/-! ## Rounding of values that need no rounding -/

theorem roundHalfEven_dvd (s n : Nat) : 2 ^ s ∣ roundHalfEven s n := by
  unfold roundHalfEven
  simp only
  split_ifs <;> exact Dvd.intro_left _ rfl

theorem roundHalfEven_of_dvd (s n : Nat) (h : 2 ^ s ∣ n) : roundHalfEven s n = n := by
  have hr : n % 2 ^ s = 0 := Nat.mod_eq_zero_of_dvd h
  have hpos : 0 < 2 ^ s := Nat.two_pow_pos s
  unfold roundHalfEven
  simp only [hr, Nat.mul_zero, hpos, if_true]
  exact Nat.div_mul_cancel h

theorem ulpExp_binary64_le (n : Nat) : ulpExp binary64 n ≤ ulpExp binary32 n := by
  simp only [ulpExp, binary64, binary32]
  omega

/-- A value that `float32` represents exactly is a `float64`. -/
theorem roundTo_binary64_of_binary32 (neg : Bool) (n : Nat)
    (h : roundTo binary32 neg n = .fin neg n) : roundTo binary64 neg n = .fin neg n := by
  unfold roundTo at h ⊢
  simp only at h ⊢
  split at h
  · next hlt =>
    have hn : roundHalfEven (ulpExp binary32 n) n = n := by
      injection h
    have hdvd32 : 2 ^ ulpExp binary32 n ∣ n := by
      have := roundHalfEven_dvd (ulpExp binary32 n) n
      rwa [hn] at this
    have hdvd64 : 2 ^ ulpExp binary64 n ∣ n :=
      Dvd.dvd.trans (Nat.pow_dvd_pow 2 (ulpExp_binary64_le n)) hdvd32
    rw [roundHalfEven_of_dvd _ _ hdvd64]
    rw [hn] at hlt
    have hle : (2 : Nat) ^ binary32.maxExp ≤ 2 ^ binary64.maxExp :=
      Nat.pow_le_pow_right (by decide) (by decide)
    rw [if_pos (Nat.lt_of_lt_of_le hlt hle)]
  · cases h

theorem signedUnits_ofUnits (z : Int) : signedUnits (decide (z < 0)) z.natAbs = z := by
  unfold signedUnits
  by_cases hz : z < 0
  · simp only [hz, decide_True, if_true]
    omega
  · simp only [hz, decide_False]
    simp only [Bool.false_eq_true, if_false]
    omega

theorem units_ofUnits (z : Int) : (ofUnits z).units = some z := by
  simp [ofUnits, GoFloat.units, signedUnits_ofUnits]

set_option exponentiation.threshold 4000 in
set_option maxRecDepth 10000 in
theorem ofInt_273 : ofInt 273 = .fin false (273 * 2 ^ 1074) := by decide

/-- When the exact sum of a finite `x` and 273 is a `float32`, the `float64` sum
`x + 273` is that exact sum. -/
theorem add64_273_exact (neg : Bool) (n : Nat)
    (h : float32 (ofUnits (signedUnits neg n + 273 * ((2 ^ 1074 : Nat) : Int))) =
      ofUnits (signedUnits neg n + 273 * ((2 ^ 1074 : Nat) : Int))) :
    add64 (.fin neg n) (ofInt 273) =
      ofUnits (signedUnits neg n + 273 * ((2 ^ 1074 : Nat) : Int)) := by
  have hc : signedUnits false (273 * 2 ^ 1074) = 273 * ((2 ^ 1074 : Nat) : Int) := by
    show ((273 * 2 ^ 1074 : Nat) : Int) = 273 * ((2 ^ 1074 : Nat) : Int)
    rw [Nat.cast_mul]
    rfl
  rw [ofInt_273]
  unfold add64 GoFloat.add
  simp only [hc]
  generalize signedUnits neg n + 273 * ((2 ^ 1074 : Nat) : Int) = z at h ⊢
  by_cases hz : z = 0
  · subst hz
    simp [ofUnits]
  · rw [if_neg hz]
    exact roundTo_binary64_of_binary32 _ _ h

set_option exponentiation.threshold 4000 in
set_option maxRecDepth 10000 in
/-- C6 as stated fails: for the `float64` reading `C = 2^-16 + 2^-41` the lookup
succeeds with `temp_c = 2^-16` and `temp_k = 273 + 2^-15`, which is neither the
exact sum `temp_c + 273 = 273 + 2^-16` nor the `float32` sum of `temp_c` and
273, which is 273. -/
theorem kelvin_not_celsius_plus_273 :
    GoFloat.convert binary64 (.fin false (2 ^ 1058 + 2 ^ 1033))
      = .fin false (2 ^ 1058 + 2 ^ 1033) ∧
    (Setup (lit "00000000")
      (NewCepTemperature
        (MockWeatherApi (some ⟨⟨.fin false (2 ^ 1058 + 2 ^ 1033), ofInt 40⟩⟩, none))
        (MockNominatimApi (some (nominatimAt (lit "80") (lit "100")), none)))).panicked
      = none ∧
    (Setup (lit "00000000")
      (NewCepTemperature
        (MockWeatherApi (some ⟨⟨.fin false (2 ^ 1058 + 2 ^ 1033), ofInt 40⟩⟩, none))
        (MockNominatimApi (some (nominatimAt (lit "80") (lit "100")), none)))).w.code
      = some 200 ∧
    (Setup (lit "00000000")
      (NewCepTemperature
        (MockWeatherApi (some ⟨⟨.fin false (2 ^ 1058 + 2 ^ 1033), ofInt 40⟩⟩, none))
        (MockNominatimApi (some (nominatimAt (lit "80") (lit "100")), none)))).w.body
      = [.response {
          TempC := .fin false (2 ^ 1058)
          TempF := ofInt 40
          TempK := .fin false (273 * 2 ^ 1074 + 2 ^ 1059) }] ∧
    GoFloat.units (.fin false (273 * 2 ^ 1074 + 2 ^ 1059)) ≠
      (GoFloat.units (.fin false (2 ^ 1058))).map (fun z => z + 273 * ((2 ^ 1074 : Nat) : Int)) ∧
    GoFloat.fin false (273 * 2 ^ 1074 + 2 ^ 1059) ≠ add32 (.fin false (2 ^ 1058)) (ofInt 273) ∧
    add32 (.fin false (2 ^ 1058)) (ofInt 273) = ofInt 273 := by
  decide

/-- C6, amended.  In every successful lookup, with `C` the `float64` Celsius
reading, `temp_c` is `float32(C)` and `temp_k` is `float32(C + 273)`, the sum
being taken in `float64` on the reading.  When `C` and the exact sum `C + 273`
are both values of `float32`, `temp_k` is exactly `temp_c + 273`; otherwise
the two may differ by rounding. -/
theorem kelvin_is_narrowed_sum {σ : Type} (ct : CepTemperature σ) (r : http.Request)
    (s s1 s2 : σ) (location : nominatim.Nominatim) (reading : weather.Weather)
    (resp : Response)
    (hlen : len (r.PathValue (lit "cep")) = 8)
    (hgeo : ct.nominatim.GetLocation (r.PathValue (lit "cep")) s = ((some location, none), s1))
    (hwea : ct.weather.GetWeather location.Lat location.Lon s1 = ((some reading, none), s2))
    (hbody : (ct.GetCepTemperatureHandler httptest.NewRecorder r s).w.body = [.response resp]) :
    resp.TempC = float32 reading.Current.TempC ∧
    resp.TempK = float32 (add64 reading.Current.TempC (ofInt 273)) ∧
    (∀ (neg : Bool) (n : Nat), reading.Current.TempC = .fin neg n →
      float32 (.fin neg n) = .fin neg n →
      float32 (ofUnits (signedUnits neg n + 273 * ((2 ^ 1074 : Nat) : Int))) =
        ofUnits (signedUnits neg n + 273 * ((2 ^ 1074 : Nat) : Int)) →
      resp.TempC.units = some (signedUnits neg n) ∧
      resp.TempK.units = some (signedUnits neg n + 273 * ((2 ^ 1074 : Nat) : Int))) := by
  have hresp : resp = {
      TempC := float32 reading.Current.TempC
      TempF := float32 reading.Current.TempF
      TempK := float32 (add64 reading.Current.TempC (ofInt 273)) } := by
    cases henc : json.Encode (.response {
        TempC := float32 reading.Current.TempC
        TempF := float32 reading.Current.TempF
        TempK := float32 (add64 reading.Current.TempC (ofInt 273)) }) with
    | none =>
      simp [CepTemperature.GetCepTemperatureHandler, hlen, hgeo, hwea, ToJson_NewRecorder,
        henc] at hbody
    | some doc =>
      have hdoc : doc = .response {
          TempC := float32 reading.Current.TempC
          TempF := float32 reading.Current.TempF
          TempK := float32 (add64 reading.Current.TempC (ofInt 273)) } := by
        simp only [json.Encode] at henc
        split at henc
        · exact (Option.some.inj henc).symm
        · cases henc
      simp [CepTemperature.GetCepTemperatureHandler, hlen, hgeo, hwea, ToJson_NewRecorder,
        henc, hdoc] at hbody
      exact hbody.symm
  subst hresp
  refine ⟨rfl, rfl, ?_⟩
  intro neg n hC h32 hsum
  constructor
  · show (float32 reading.Current.TempC).units = _
    rw [hC, h32]
    rfl
  · show (float32 (add64 reading.Current.TempC (ofInt 273))).units = _
    rw [hC, add64_273_exact neg n hsum, hsum]
    exact units_ofUnits _

set_option exponentiation.threshold 4000 in
set_option maxRecDepth 10000 in
/-- Witness of C6 (amended): for the reading `C = 20`, `temp_c = 20` and
`temp_k = 293`, exactly `temp_c + 273`. -/
theorem kelvin_is_narrowed_sum_witness :
    len ((httptest.NewRequest.SetPathValue (lit "cep") (lit "00000000")).PathValue (lit "cep"))
      = 8 ∧
    (Setup (lit "00000000")
      (NewCepTemperature (MockWeatherApi (some ⟨⟨ofInt 20, ofInt 40⟩⟩, none))
        (MockNominatimApi (some (nominatimAt (lit "80") (lit "100")), none)))).w.body
      = [.response { TempC := ofInt 20, TempF := ofInt 40, TempK := ofInt 293 }] ∧
    float32 (.fin false (20 * 2 ^ 1074)) = .fin false (20 * 2 ^ 1074) ∧
    float32 (ofUnits (signedUnits false (20 * 2 ^ 1074) + 273 * ((2 ^ 1074 : Nat) : Int))) =
      ofUnits (signedUnits false (20 * 2 ^ 1074) + 273 * ((2 ^ 1074 : Nat) : Int)) ∧
    (ofInt 20).units = some (signedUnits false (20 * 2 ^ 1074)) ∧
    (ofInt 293).units =
      some (signedUnits false (20 * 2 ^ 1074) + 273 * ((2 ^ 1074 : Nat) : Int)) :=
  ⟨by decide, by decide, by decide, by decide,
    (kelvin_is_narrowed_sum
      (NewCepTemperature (MockWeatherApi (some ⟨⟨ofInt 20, ofInt 40⟩⟩, none))
        (MockNominatimApi (some (nominatimAt (lit "80") (lit "100")), none)))
      (httptest.NewRequest.SetPathValue (lit "cep") (lit "00000000")) 0 1 2
      (nominatimAt (lit "80") (lit "100")) ⟨⟨ofInt 20, ofInt 40⟩⟩
      { TempC := ofInt 20, TempF := ofInt 40, TempK := ofInt 293 }
      (by decide) rfl rfl (by decide)).2.2 false (20 * 2 ^ 1074)
      (by decide) (by decide) (by decide)⟩

end CloudRun
